import Mathlib

/-!
Verification of the `safetywrap` container library (`src/safetywrap/_impl.py`,
`src/safetywrap/_interface.py`, and the `Immutable` mixin in
`src/result_types/_mixin.py`).

The two container families `Result` (`Ok`/`Err`) and `Option`
(`Some`/`Nothing`) are embedded as inductive types; each Python method
becomes a Lean function on the corresponding type.  Methods that can raise
are embedded as functions into `Except PyExc`; Python's dynamic `repr` of a
payload is passed in explicitly where an error message needs it.  Iterables
are embedded as lists; an iterable whose iteration itself may raise is a
list of `Except PyExc` elements.  Call-counting ("traced") variants of the
callback-taking combinators mirror the exact control flow of the source
bodies, additionally reporting how many times the supplied callback ran, or
how many elements of an iterable were consumed.
-/

namespace Safetywrap

/-- Python exception values, carrying their message.  One constructor per
exception class that appears in the sources (`RuntimeError` is the default
`exc_cls` everywhere; `TypeError` is what `Immutable.__setattr__` raises;
the arithmetic/lookup errors appear in the spec's `Result.of` examples). -/
inductive PyExc where
  | RuntimeError : String → PyExc
  | TypeError : String → PyExc
  | ZeroDivisionError : String → PyExc
  | KeyError : String → PyExc
deriving DecidableEq, Repr

/-- Python exception classes usable as the `catch` argument of `Result.of`.
`Exception` is the root: every `PyExc` value is an instance of it. -/
inductive PyExcClass where
  | Exception
  | RuntimeError
  | TypeError
  | ZeroDivisionError
  | KeyError
deriving DecidableEq, Repr

/-- The concrete class of an exception value. -/
def PyExc.cls : PyExc → PyExcClass
  | .RuntimeError _ => .RuntimeError
  | .TypeError _ => .TypeError
  | .ZeroDivisionError _ => .ZeroDivisionError
  | .KeyError _ => .KeyError

/-- `isinstance(e, c)` for the exception classes above: every class in the
model is a direct subclass of `Exception`, so an exception matches a catch
class iff the class is `Exception` itself or the exception's own class. -/
def isinstanceOf (e : PyExc) (c : PyExcClass) : Bool :=
  c == PyExcClass.Exception || e.cls == c

/-- `Result[T, E]` (`_impl.py`): exactly one of a success value `Ok(T)` or a
failure value `Err(E)`; the tag and payload are fixed at construction. -/
inductive Result (T E : Type) where
  | Ok : T → Result T E
  | Err : E → Result T E
deriving DecidableEq, Repr

/-- `Option[T]` (`_impl.py`): exactly one of a present value `Some(T)` or
the absent value `Nothing()`. -/
inductive Option (T : Type) where
  | Some : T → Option T
  | Nothing : Option T
deriving DecidableEq, Repr

namespace Result

variable {T E U F : Type}

/-- `Ok.is_ok` returns `True`; `Err.is_ok` returns `False`. -/
def is_ok : Result T E → Bool
  | .Ok _ => true
  | .Err _ => false

/-- `Ok.is_err` returns `False`; `Err.is_err` returns `True`. -/
def is_err : Result T E → Bool
  | .Ok _ => false
  | .Err _ => true

/-- `Ok.map` returns `Ok(fn(self._value))`; `Err.map` returns `self`
unchanged (the error payload is untouched; only the static success-type
parameter changes). -/
def map (fn : T → U) : Result T E → Result U E
  | .Ok v => .Ok (fn v)
  | .Err e => .Err e

/-- `Ok.map_err` returns `self`; `Err.map_err` returns `Err(fn(self._value))`. -/
def map_err (fn : E → F) : Result T E → Result T F
  | .Ok v => .Ok v
  | .Err e => .Err (fn e)

/-- `Ok.and_then` returns `fn(self._value)`; `Err.and_then` returns `self`. -/
def and_then (fn : T → Result U E) : Result T E → Result U E
  | .Ok v => fn v
  | .Err e => .Err e

/-- `Ok.or_else` returns `self`; `Err.or_else` returns `fn(self._value)`. -/
def or_else (fn : E → Result T F) : Result T E → Result T F
  | .Ok v => .Ok v
  | .Err e => fn e

/-- `Ok.ok` returns `Some(self._value)`; `Err.ok` returns `Nothing()`. -/
def ok : Result T E → Option T
  | .Ok v => .Some v
  | .Err _ => .Nothing

/-- `Ok.err` returns `Nothing()`; `Err.err` returns `Some(self._value)`. -/
def err : Result T E → Option E
  | .Ok _ => .Nothing
  | .Err e => .Some e

/-- `__str__` of a result: `"Ok(<repr>)"` or `"Err(<repr>)"`, built from the
class name and the `repr` of the payload. -/
def strOf (reprT : T → String) (reprE : E → String) : Result T E → String
  | .Ok v => "Ok(" ++ reprT v ++ ")"
  | .Err e => "Err(" ++ reprE e ++ ")"

/-- `Ok.unwrap` returns the value; `Err.unwrap` raises
`RuntimeError(f"Tried to unwrap {self}!")`, where `str(self)` for an `Err`
is `"Err(<repr of the error payload>)"`.  The payload's Python `repr` is
passed in as `reprE`. -/
def unwrap (reprE : E → String) : Result T E → Except PyExc T
  | .Ok v => .ok v
  | .Err e => .error (.RuntimeError ("Tried to unwrap Err(" ++ reprE e ++ ")!"))

/-- `Ok.unwrap_err` raises `RuntimeError(f"Tried to unwrap_err {self}!")`,
where `str(self)` for an `Ok` is `"Ok(<repr of the success payload>)"`;
`Err.unwrap_err` returns the error value. -/
def unwrap_err (reprT : T → String) : Result T E → Except PyExc E
  | .Ok v => .error (.RuntimeError ("Tried to unwrap_err Ok(" ++ reprT v ++ ")!"))
  | .Err e => .ok e

/-- `Ok.unwrap_or` returns the value; `Err.unwrap_or` returns `alternative`. -/
def unwrap_or (alternative : T) : Result T E → T
  | .Ok v => v
  | .Err _ => alternative

/-- `Result.of(fn, catch=...)` (`_impl.py` lines 32-48): call `fn`; on normal
completion return `Ok(result)`; if it raises an exception matching the catch
class, return `Err(that exception object)`; otherwise the exception
propagates.  The already-applied call of `fn` is embedded as an
`Except PyExc T` value; the whole static method is fallible because a
non-matching exception escapes it. -/
def of (fn : Except PyExc T) (catchCls : PyExcClass) : Except PyExc (Result T PyExc) :=
  match fn with
  | .ok v => .ok (.Ok v)
  | .error exc =>
    if isinstanceOf exc catchCls then .ok (.Err exc) else .error exc

/-- The loop body of `Result.collect` (`_impl.py` lines 73-79): walk the
iterable keeping a tuple `ok_vals` of unwrapped values; on the first element
with `is_err()` true, return `result.map(lambda _: ())` (which, on an `Err`,
returns `self` with the payload untouched); otherwise append
`result.unwrap()` and continue; an exhausted iterable yields `Ok(ok_vals)`. -/
def collectLoop (ok_vals : List T) : List (Result T E) → Result (List T) E
  | [] => .Ok ok_vals
  | result :: rest =>
    match result with
    | .Err e => (Result.Err e : Result T E).map (fun _ => [])
    | .Ok v => collectLoop (ok_vals ++ [v]) rest

/-- `Result.collect(iterable)`: the loop above started with an empty tuple. -/
def collect (iterable : List (Result T E)) : Result (List T) E :=
  collectLoop [] iterable

/-- `Result.collect` instrumented with the number of elements pulled from
the iterable: one pull per loop iteration, and the loop returns from inside
the iteration that saw the first `Err`. -/
def collectLoopTraced (ok_vals : List T) :
    List (Result T E) → Result (List T) E × Nat
  | [] => (.Ok ok_vals, 0)
  | result :: rest =>
    match result with
    | .Err e => ((Result.Err e : Result T E).map (fun _ => []), 1)
    | .Ok v =>
      let r := collectLoopTraced (ok_vals ++ [v]) rest
      (r.1, r.2 + 1)

/-- Traced `Result.collect`. -/
def collectTraced (iterable : List (Result T E)) : Result (List T) E × Nat :=
  collectLoopTraced [] iterable

/-- `Ok.map` calls `fn` exactly once; `Err.map` returns `self` without
calling `fn`.  The second component counts invocations of `fn`. -/
def mapTraced (fn : T → U) : Result T E → Result U E × Nat
  | .Ok v => (.Ok (fn v), 1)
  | .Err e => (.Err e, 0)

/-- `map_err` with an invocation count for `fn`. -/
def map_errTraced (fn : E → F) : Result T E → Result T F × Nat
  | .Ok v => (.Ok v, 0)
  | .Err e => (.Err (fn e), 1)

/-- `and_then` with an invocation count for `fn`. -/
def and_thenTraced (fn : T → Result U E) : Result T E → Result U E × Nat
  | .Ok v => (fn v, 1)
  | .Err e => (.Err e, 0)

/-- `or_else` with an invocation count for `fn`. -/
def or_elseTraced (fn : E → Result T F) : Result T E → Result T F × Nat
  | .Ok v => (.Ok v, 0)
  | .Err e => (fn e, 1)

/-- `unwrap_or_else` with an invocation count for `fn`: `Ok` returns its
value without calling `fn`; `Err` returns `fn(self._value)`. -/
def unwrap_or_elseTraced (fn : E → T) : Result T E → T × Nat
  | .Ok v => (v, 0)
  | .Err e => (fn e, 1)

end Result

namespace Option

variable {T E U : Type}

/-- `Some.is_some` is `True`; `Nothing.is_some` is `False`. -/
def is_some : Option T → Bool
  | .Some _ => true
  | .Nothing => false

/-- `Some.is_nothing` is `False`; `Nothing.is_nothing` is `True`. -/
def is_nothing : Option T → Bool
  | .Some _ => false
  | .Nothing => true

/-- `Some.map` returns `Some(fn(self._value))`; `Nothing.map` returns `self`. -/
def map (fn : T → U) : Option T → Option U
  | .Some v => .Some (fn v)
  | .Nothing => .Nothing

/-- `Some.and_then` returns `fn(self._value)`; `Nothing.and_then` returns `self`. -/
def and_then (fn : T → Option U) : Option T → Option U
  | .Some v => fn v
  | .Nothing => .Nothing

/-- `Some.or_else` returns `self`; `Nothing.or_else` returns `fn()`. -/
def or_else (fn : Unit → Option T) : Option T → Option T
  | .Some v => .Some v
  | .Nothing => fn ()

/-- `Some.ok_or` returns `Ok(self._value)`; `Nothing.ok_or` returns `Err(err)`. -/
def ok_or (err : E) : Option T → Result T E
  | .Some v => .Ok v
  | .Nothing => .Err err

/-- `Some.ok_or_else` returns `Ok(self._value)`; `Nothing.ok_or_else`
returns `Err(err_fn())`. -/
def ok_or_else (err_fn : Unit → E) : Option T → Result T E
  | .Some v => .Ok v
  | .Nothing => .Err (err_fn ())

/-- `Some.unwrap` returns the value; `Nothing.unwrap` raises
`RuntimeError("Tried to unwrap Nothing")` (`_impl.py` lines 760-766). -/
def unwrap : Option T → Except PyExc T
  | .Some v => .ok v
  | .Nothing => .error (.RuntimeError "Tried to unwrap Nothing")

/-- `Some.map` under Python dynamics where the supplied callback may itself
raise: on `Some` the callback runs and any exception it raises propagates
out of `map`; on `Nothing` the callback is never run. -/
def mapE (fn : T → Except PyExc U) : Option T → Except PyExc (Option U)
  | .Some v =>
    match fn v with
    | .ok u => .ok (.Some u)
    | .error exc => .error exc
  | .Nothing => .ok .Nothing

/-- `map` with an invocation count for `fn`. -/
def mapTraced (fn : T → U) : Option T → Option U × Nat
  | .Some v => (.Some (fn v), 1)
  | .Nothing => (.Nothing, 0)

/-- `and_then` with an invocation count for `fn`. -/
def and_thenTraced (fn : T → Option U) : Option T → Option U × Nat
  | .Some v => (fn v, 1)
  | .Nothing => (.Nothing, 0)

/-- `or_else` with an invocation count for `fn`. -/
def or_elseTraced (fn : Unit → Option T) : Option T → Option T × Nat
  | .Some v => (.Some v, 0)
  | .Nothing => (fn (), 1)

/-- `filter` with an invocation count for the predicate: `Some` calls it
once and keeps `self` or drops to `Nothing`; `Nothing` returns `self`
without calling it. -/
def filterTraced (predicate : T → Bool) : Option T → Option T × Nat
  | .Some v => (if predicate v then .Some v else .Nothing, 1)
  | .Nothing => (.Nothing, 0)

/-- `map_or` with an invocation count for `fn`: `Some` returns `fn(value)`;
`Nothing` returns `default` without calling `fn`. -/
def map_orTraced (default : U) (fn : T → U) : Option T → U × Nat
  | .Some v => (fn v, 1)
  | .Nothing => (default, 0)

/-- `map_or_else` counting the total callback invocations (`default` thunk
plus `fn`): `Some` calls `fn(value)` only; `Nothing` calls `default()` only. -/
def map_or_elseTraced (default : Unit → U) (fn : T → U) : Option T → U × Nat
  | .Some v => (fn v, 1)
  | .Nothing => (default (), 1)

/-- `unwrap_or_else` with an invocation count for `fn`. -/
def unwrap_or_elseTraced (fn : Unit → T) : Option T → T × Nat
  | .Some v => (v, 0)
  | .Nothing => (fn (), 1)

/-- `ok_or_else` with an invocation count for `err_fn`. -/
def ok_or_elseTraced (err_fn : Unit → E) : Option T → Result T E × Nat
  | .Some v => (.Ok v, 0)
  | .Nothing => (.Err (err_fn ()), 1)

end Option

/-- `functools.reduce(f, iterable, acc)` over an iterable whose element
production may itself raise (each pull of the iterator is an
`Except PyExc B`), with a folding function that may raise: any exception —
from the iterator or from `f` — propagates out of the reduction at once. -/
def reduceE {A B : Type} (f : A → B → Except PyExc A) :
    A → List (Except PyExc B) → Except PyExc A
  | acc, [] => .ok acc
  | acc, item :: rest =>
    match item with
    | .error e => .error e
    | .ok i =>
      match f acc i with
      | .error e => .error e
      | .ok acc2 => reduceE f acc2 rest

/-- `reduceE` instrumented with the number of elements pulled from the
iterable (a pull that raises still counts as one pull; nothing after an
exception is pulled). -/
def reduceETraced {A B : Type} (f : A → B → Except PyExc A) :
    A → List (Except PyExc B) → Except PyExc A × Nat
  | acc, [] => (.ok acc, 0)
  | acc, item :: rest =>
    match item with
    | .error e => (.error e, 1)
    | .ok i =>
      match f acc i with
      | .error e => (.error e, 1)
      | .ok acc2 =>
        let r := reduceETraced f acc2 rest
        (r.1, r.2 + 1)

namespace Option

variable {T : Type}

/-- The folding lambda of `Option.collect` (`_impl.py` line 136):
`lambda acc, i: acc.map(lambda somes: (*somes, i.unwrap()))`.  The inner
lambda evaluates `i.unwrap()`, which raises `RuntimeError` when `i` is
`Nothing`; `acc.map` runs that lambda only when `acc` is `Some`. -/
def collectStep (acc : Option (List T)) (i : Option T) :
    Except PyExc (Option (List T)) :=
  acc.mapE (fun somes =>
    match i.unwrap with
    | .ok v => .ok (somes ++ [v])
    | .error exc => .error exc)

/-- `Option.collect(options)` (`_impl.py` lines 126-141): reduce the
iterable with `collectStep` starting from `Some(())`, catching
`RuntimeError` and turning it into `Nothing()`; any other exception
escaping the reduction propagates out of `collect`. -/
def collect (options : List (Except PyExc (Option T))) :
    Except PyExc (Option (List T)) :=
  match reduceE collectStep (.Some []) options with
  | .error (PyExc.RuntimeError _) => .ok .Nothing
  | other => other

/-- `Option.collect` instrumented with the number of elements pulled from
the iterable. -/
def collectTraced (options : List (Except PyExc (Option T))) :
    Except PyExc (Option (List T)) × Nat :=
  (match (reduceETraced collectStep (.Some []) options).1 with
   | .error (PyExc.RuntimeError _) => .ok .Nothing
   | other => other,
   (reduceETraced collectStep (.Some []) options).2)

end Option

/-- A universe of dynamically typed Python values: primitives (as payload
examples) and the four container variants, closed under nesting. -/
inductive PyVal where
  | int : Int → PyVal
  | str : String → PyVal
  | ok : PyVal → PyVal
  | err : PyVal → PyVal
  | some : PyVal → PyVal
  | nothing : PyVal
deriving DecidableEq, Repr

/-- Python `==` over `PyVal`, embedding the `__eq__` methods of the four
container classes: `Ok.__eq__` returns `False` unless `other` is a `Result`
whose `is_ok()` is true, then compares payloads (`_impl.py` lines 274-281);
`Err.__eq__` symmetric (lines 424-431); `Some.__eq__` returns `False`
unless `isinstance(other, Some)` (lines 593-598); `Nothing.__eq__` returns
`True` exactly when `isinstance(other, Nothing)` (lines 781-785).  When
neither side is a container, the primitives' own `==` applies; a
primitive on the left reflects onto the container's `__eq__`, which
returns `False`. -/
def pyEq : PyVal → PyVal → Bool
  | .ok a, .ok b => pyEq a b
  | .ok _, _ => false
  | .err a, .err b => pyEq a b
  | .err _, _ => false
  | .some a, .some b => pyEq a b
  | .some _, _ => false
  | .nothing, .nothing => true
  | .nothing, _ => false
  | .int i, .int j => i == j
  | .int _, _ => false
  | .str s, .str u => s == u
  | .str _, _ => false

/-- Outcome of a Python attribute assignment `obj.key = val`. -/
inductive SetattrOutcome where
  | assigned
  | attributeError
  | typeErrorImmutable
deriving DecidableEq, Repr

/-- Default `object.__setattr__` on an instance of a class whose every base
declares `__slots__` (so instances have no `__dict__`): assignment to a
declared slot succeeds; assignment to any other name raises
`AttributeError`. -/
def objectSetattr (slots : List String) (key : String) : SetattrOutcome :=
  if slots.contains key then .assigned else .attributeError

/-- `Immutable.__setattr__` (`src/result_types/_mixin.py` lines 19-28): if
`self._instantiated` is already set, raise
`TypeError("... is immutable.")`; if reading it raises `AttributeError`
(not yet set), fall through to `object.__setattr__`. -/
def immutableSetattr (instantiated : Bool) (slots : List String)
    (key : String) : SetattrOutcome :=
  if instantiated then .typeErrorImmutable else objectSetattr slots key

/-- The `__slots__` of each concrete container class `Ok`, `Err`, `Some`,
`Nothing` (`_impl.py` lines 150, 299, 449, 616): exactly `("_value",)`; all
their bases (`Result`/`Option`, `_Result`/`_Option`) declare empty
`__slots__`. -/
def containerSlots : List String := ["_value"]

/-- Attribute assignment on a constructed `Ok`, `Err`, `Some`, or `Nothing`
instance: no class in any of their method-resolution orders overrides
`__setattr__` (the `Immutable` mixin of `src/result_types/_mixin.py` is not
a base of any container class), so plain `object.__setattr__` with the
`("_value",)` slots applies. -/
def containerSetattr (key : String) : SetattrOutcome :=
  objectSetattr containerSlots key

/-- The class-level `_instance` attribute of `Nothing`: initially `None`,
later a reference to the allocated singleton, identified by an allocation
id. -/
inductive InstanceRef where
  | noneRef
  | ref : Nat → InstanceRef
deriving DecidableEq, Repr

/-- `Nothing.__new__` (`_impl.py` lines 627-637): when `cls._instance` is
`None`, allocate a fresh instance (`fresh` is the id the allocator would
hand out), store it in `cls._instance`, and return it; afterwards every
call returns the cached instance.  Returns the updated class state and the
id of the returned instance. -/
def nothingNew (state : InstanceRef) (fresh : Nat) : InstanceRef × Nat :=
  match state with
  | .noneRef => (.ref fresh, fresh)
  | .ref i => (.ref i, i)

/-- `Nothing.__eq__` (`_impl.py` lines 781-785) at the instance level: the
method looks only at whether `other` is an instance of `Nothing`; the
identities (allocation ids) of `self` and `other` are never consulted. -/
def nothingEqMethod (selfId : Nat) (otherIsNothingInst : Bool)
    (otherId : Nat) : Bool :=
  if otherIsNothingInst then true else false

/-! ## Helper lemmas -/

/-- Running the `Result.collect` loop over a list of `Ok`s appends all their
values to the accumulator. -/
theorem collectLoop_all_ok {T E : Type} (vs : List T) :
    ∀ acc : List T,
      Result.collectLoop (E := E) acc (vs.map Result.Ok) = .Ok (acc ++ vs) := by
  induction vs with
  | nil => intro acc; simp [Result.collectLoop]
  | cons v vs ih =>
    intro acc
    simp only [List.map_cons, Result.collectLoop, ih (acc ++ [v]),
      List.append_assoc, List.singleton_append]

/-- The `Result.collect` loop returns the first `Err` with its payload
untouched, whatever follows it. -/
theorem collectLoop_first_err {T E : Type} (vs : List T) (e : E)
    (rest : List (Result T E)) :
    ∀ acc : List T,
      Result.collectLoop acc (vs.map Result.Ok ++ Result.Err e :: rest)
        = .Err e := by
  induction vs with
  | nil => intro acc; simp [Result.collectLoop, Result.map]
  | cons v vs ih =>
    intro acc
    simp only [List.map_cons, List.cons_append, List.append_eq,
      Result.collectLoop, ih (acc ++ [v])]

/-- The traced `Result.collect` loop computes the same result as the
untraced one. -/
theorem collectLoopTraced_fst {T E : Type} (l : List (Result T E)) :
    ∀ acc : List T,
      (Result.collectLoopTraced acc l).1 = Result.collectLoop acc l := by
  induction l with
  | nil => intro acc; rfl
  | cons r rest ih =>
    intro acc
    cases r with
    | Ok v => simp only [Result.collectLoopTraced, Result.collectLoop, ih]
    | Err e => rfl

/-- The `Result.collect` loop pulls exactly the all-`Ok` prelude plus the
first `Err` from the iterable, nothing after it. -/
theorem collectLoopTraced_first_err_count {T E : Type} (vs : List T) (e : E)
    (rest : List (Result T E)) :
    ∀ acc : List T,
      (Result.collectLoopTraced acc
        (vs.map Result.Ok ++ Result.Err e :: rest)).2 = vs.length + 1 := by
  induction vs with
  | nil => intro acc; rfl
  | cons v vs ih =>
    intro acc
    simp only [List.map_cons, List.cons_append, List.append_eq,
      Result.collectLoopTraced, ih (acc ++ [v]), List.length_cons]

/-- One step of `Option.collect`'s fold on a present accumulator and a
present element appends the element's value. -/
theorem collectStep_some_some {T : Type} (acc : List T) (v : T) :
    Option.collectStep (.Some acc) (.Some v) = .ok (.Some (acc ++ [v])) := rfl

/-- One step of `Option.collect`'s fold on a present accumulator and an
absent element raises the `RuntimeError` coming from `Nothing.unwrap`. -/
theorem collectStep_some_nothing {T : Type} (acc : List T) :
    Option.collectStep (.Some acc) (Option.Nothing : Option T)
      = .error (.RuntimeError "Tried to unwrap Nothing") := rfl

/-- Reducing `Option.collect`'s fold over elements that are all `Some`
accumulates all their values. -/
theorem reduceE_collectStep_somes {T : Type} (vs : List T) :
    ∀ acc : List T,
      reduceE Option.collectStep (.Some acc)
          (vs.map fun v => Except.ok (Option.Some v))
        = .ok (.Some (acc ++ vs)) := by
  induction vs with
  | nil => intro acc; simp [reduceE]
  | cons v vs ih =>
    intro acc
    simp only [List.map_cons, reduceE, collectStep_some_some, ih (acc ++ [v]),
      List.append_assoc, List.singleton_append]

/-- Reducing `Option.collect`'s fold over an all-`Some` prelude followed by
a `Nothing` raises the `RuntimeError` from `Nothing.unwrap`, whatever
follows. -/
theorem reduceE_collectStep_nothing {T : Type} (vs : List T)
    (rest : List (Except PyExc (Option T))) :
    ∀ acc : List T,
      reduceE Option.collectStep (.Some acc)
          ((vs.map fun v => Except.ok (Option.Some v))
            ++ Except.ok Option.Nothing :: rest)
        = .error (.RuntimeError "Tried to unwrap Nothing") := by
  induction vs with
  | nil => intro acc; rfl
  | cons v vs ih =>
    intro acc
    simp only [List.map_cons, List.cons_append, List.append_eq, reduceE,
      collectStep_some_some, ih (acc ++ [v])]

/-- Reducing `Option.collect`'s fold over an all-`Some` prelude followed by
an element whose very production raises propagates that exception. -/
theorem reduceE_collectStep_raise {T : Type} (vs : List T) (exc : PyExc)
    (rest : List (Except PyExc (Option T))) :
    ∀ acc : List T,
      reduceE Option.collectStep (.Some acc)
          ((vs.map fun v => Except.ok (Option.Some v))
            ++ Except.error exc :: rest)
        = .error exc := by
  induction vs with
  | nil => intro acc; rfl
  | cons v vs ih =>
    intro acc
    simp only [List.map_cons, List.cons_append, List.append_eq, reduceE,
      collectStep_some_some, ih (acc ++ [v])]

/-- The traced reduction computes the same result as the untraced one. -/
theorem reduceETraced_fst {A B : Type} (f : A → B → Except PyExc A)
    (l : List (Except PyExc B)) :
    ∀ acc : A, (reduceETraced f acc l).1 = reduceE f acc l := by
  induction l with
  | nil => intro acc; rfl
  | cons item rest ih =>
    intro acc
    cases item with
    | error e => rfl
    | ok i =>
      simp only [reduceETraced, reduceE]
      cases f acc i with
      | error e => rfl
      | ok acc2 => simp only [ih acc2]

/-- The fold of `Option.collect` pulls exactly the all-`Some` prelude plus
the first `Nothing` from the iterable, nothing after it. -/
theorem reduceETraced_collectStep_nothing_count {T : Type} (vs : List T)
    (rest : List (Except PyExc (Option T))) :
    ∀ acc : List T,
      (reduceETraced Option.collectStep (.Some acc)
          ((vs.map fun v => Except.ok (Option.Some v))
            ++ Except.ok Option.Nothing :: rest)).2 = vs.length + 1 := by
  induction vs with
  | nil => intro acc; rfl
  | cons v vs ih =>
    intro acc
    simp only [List.map_cons, List.cons_append, List.append_eq,
      reduceETraced, collectStep_some_some, ih (acc ++ [v]),
      List.length_cons]

/-! ## Claims -/

/-- Claim C1, corrected.  As stated the claim is false: no container class
overrides `__setattr__` (the `Immutable` mixin is never inherited), so
reassigning the declared payload slot `_value` of a constructed `Ok`,
`Err`, `Some`, or `Nothing` silently succeeds.  What does hold: assigning
any attribute outside `__slots__` raises `AttributeError`, and the unused
`Immutable.__setattr__` would raise `TypeError` on every assignment to an
instantiated object. -/
theorem claim_C1 :
    containerSetattr "_value" = SetattrOutcome.assigned
  ∧ containerSetattr "other_attr" = SetattrOutcome.attributeError
  ∧ (∀ (slots : List String) (key : String),
      immutableSetattr true slots key = SetattrOutcome.typeErrorImmutable) :=
  ⟨rfl, rfl, fun _ _ => rfl⟩

/-- Claim C1 counterexample: at the concrete input — the payload attribute
`"_value"` of a constructed container — the assignment outcome is
`assigned`, not an error, refuting the claim that any post-construction
assignment to internal state raises. -/
theorem claim_C1_counterexample :
    containerSetattr "_value" = SetattrOutcome.assigned
  ∧ SetattrOutcome.assigned ≠ SetattrOutcome.attributeError
  ∧ SetattrOutcome.assigned ≠ SetattrOutcome.typeErrorImmutable := by
  refine ⟨rfl, ?_, ?_⟩ <;> decide

/-- Claim C2: `Result.collect` returns `Ok` of the ordered list of all
contained values when every element is `Ok` (empty input gives `Ok []`);
otherwise it returns exactly the first `Err`, carrying its original error
value unmodified, and pulls nothing from the iterable past that first
`Err` (it consumes exactly the all-`Ok` prelude plus the `Err` itself). -/
theorem claim_C2 {T E : Type} :
    (Result.collect ([] : List (Result T E)) = .Ok [])
  ∧ (∀ vs : List T,
      Result.collect (E := E) (vs.map Result.Ok) = .Ok vs)
  ∧ (∀ (vs : List T) (e : E) (rest : List (Result T E)),
      Result.collect (vs.map Result.Ok ++ Result.Err e :: rest) = .Err e)
  ∧ (∀ (vs : List T) (e : E) (rest : List (Result T E)),
      (Result.collectTraced (vs.map Result.Ok ++ Result.Err e :: rest)).2
        = vs.length + 1)
  ∧ (∀ l : List (Result T E),
      (Result.collectTraced l).1 = Result.collect l) := by
  refine ⟨rfl, ?_, ?_, ?_, ?_⟩
  · intro vs
    simpa using collectLoop_all_ok (E := E) vs []
  · intro vs e rest
    exact collectLoop_first_err vs e rest []
  · intro vs e rest
    exact collectLoopTraced_first_err_count vs e rest []
  · intro l
    exact collectLoopTraced_fst l []

/-- Claim C3: `Err.unwrap` raises a `RuntimeError` whose message names the
container's actual contents (`str(self)` is `"Err(<repr>)"`);
`Ok.unwrap_err` raises symmetrically; `Nothing.unwrap` raises; none ever
silently returns a value. -/
theorem claim_C3 {T E : Type} :
    (∀ (e : E) (reprE : E → String),
      Result.unwrap (T := T) reprE (.Err e)
        = .error (.RuntimeError ("Tried to unwrap Err(" ++ reprE e ++ ")!")))
  ∧ (∀ (reprT : T → String) (reprE : E → String) (e : E),
      Result.strOf reprT reprE (Result.Err e : Result T E)
        = "Err(" ++ reprE e ++ ")")
  ∧ (∀ (x : T) (reprT : T → String),
      Result.unwrap_err (E := E) reprT (.Ok x)
        = .error
            (.RuntimeError ("Tried to unwrap_err Ok(" ++ reprT x ++ ")!")))
  ∧ (∀ (reprT : T → String) (reprE : E → String) (x : T),
      Result.strOf reprT reprE (Result.Ok x : Result T E)
        = "Ok(" ++ reprT x ++ ")")
  ∧ (Option.unwrap (Option.Nothing : Option T)
        = .error (.RuntimeError "Tried to unwrap Nothing")) :=
  ⟨fun _ _ => rfl, fun _ _ _ => rfl, fun _ _ => rfl, fun _ _ _ => rfl, rfl⟩

/-- Claim C4: `Result.of` wraps a normal completion in `Ok`; an exception
matching the catch class becomes `Err(that very exception object)`; a
non-matching exception propagates out; the default catch class
`Exception` matches every exception.  The spec's division examples are
included concretely. -/
theorem claim_C4 {T : Type} :
    (∀ (v : T) (c : PyExcClass), Result.of (.ok v) c = .ok (.Ok v))
  ∧ (∀ (exc : PyExc) (c : PyExcClass),
      Result.of (T := T) (.error exc) c
        = if isinstanceOf exc c then .ok (.Err exc) else .error exc)
  ∧ (∀ exc : PyExc, isinstanceOf exc PyExcClass.Exception = true)
  ∧ (Result.of (T := T)
        (.error (PyExc.ZeroDivisionError "division by zero"))
        PyExcClass.ZeroDivisionError
      = .ok (.Err (PyExc.ZeroDivisionError "division by zero")))
  ∧ (Result.of (T := T)
        (.error (PyExc.ZeroDivisionError "division by zero"))
        PyExcClass.KeyError
      = .error (PyExc.ZeroDivisionError "division by zero")) :=
  ⟨fun _ _ => rfl, fun _ _ => rfl, fun _ => rfl, rfl, rfl⟩

/-- Claim C5: container equality is a total boolean function (it can never
raise, being a total function into `Bool`); containers of the same variant
compare by payload, `Nothing` equals any `Nothing`, and comparing a
container with the other variant, the other family, or a non-container
value yields `False` — in particular `Some(1) == 1` is `False`. -/
theorem claim_C5 :
    (∀ a b : PyVal, pyEq (.ok a) (.ok b) = pyEq a b)
  ∧ (∀ a b : PyVal, pyEq (.err a) (.err b) = pyEq a b)
  ∧ (∀ a b : PyVal, pyEq (.some a) (.some b) = pyEq a b)
  ∧ (pyEq .nothing .nothing = true)
  ∧ (∀ a b : PyVal,
      pyEq (.ok a) (.err b) = false ∧ pyEq (.err a) (.ok b) = false)
  ∧ (∀ a b : PyVal,
      pyEq (.ok a) (.some b) = false ∧ pyEq (.some a) (.ok b) = false)
  ∧ (∀ a : PyVal,
      pyEq (.some a) .nothing = false ∧ pyEq .nothing (.some a) = false)
  ∧ (∀ (a : PyVal) (i : Int),
      pyEq (.some a) (.int i) = false ∧ pyEq (.int i) (.some a) = false)
  ∧ (pyEq (.some (.int 1)) (.int 1) = false) :=
  ⟨fun _ _ => rfl, fun _ _ => rfl, fun _ _ => rfl, rfl,
   fun _ _ => ⟨rfl, rfl⟩, fun _ _ => ⟨rfl, rfl⟩, fun _ => ⟨rfl, rfl⟩,
   fun _ _ => ⟨rfl, rfl⟩, rfl⟩

/-- Claim C6: the cross-family conversions round-trip as specified —
`Some(x).ok_or(e).ok() == Some(x)`, `Nothing().ok_or(e) == Err(e)`,
`Err(e).ok() == Nothing()`, `Ok(x).err() == Nothing()` — and, being plain
functions constructing new containers, they are total and mutate nothing. -/
theorem claim_C6 {T E : Type} :
    (∀ (x : T) (e : E), ((Option.Some x).ok_or e).ok = Option.Some x)
  ∧ (∀ e : E, (Option.Nothing : Option T).ok_or e = .Err e)
  ∧ (∀ e : E, (Result.Err e : Result T E).ok = .Nothing)
  ∧ (∀ x : T, (Result.Ok x : Result T E).err = .Nothing) :=
  ⟨fun _ _ => rfl, fun _ => rfl, fun _ => rfl, fun _ => rfl⟩

/-- Claim C7: `Ok(x).map(f) == Ok(f(x))` (so unwrapping gives `f(x)`),
`Err(e).map(f) == Err(e)` with `f` never invoked; and every
callback-taking combinator of both families invokes its callback at most
once per call and never on the variant whose contract forbids it (count
zero there). -/
theorem claim_C7 {T E U F : Type} :
    (∀ (x : T) (f : T → U), (Result.Ok x : Result T E).map f = .Ok (f x))
  ∧ (∀ (x : T) (f : T → U) (reprE : E → String),
      Result.unwrap reprE ((Result.Ok x : Result T E).map f) = .ok (f x))
  ∧ (∀ (e : E) (f : T → U), (Result.Err e : Result T E).map f = .Err e)
  ∧ (∀ (r : Result T E) (f : T → U),
      (Result.mapTraced f r).1 = r.map f ∧ (Result.mapTraced f r).2 ≤ 1)
  ∧ (∀ (e : E) (f : T → U),
      Result.mapTraced f (.Err e) = (.Err e, 0))
  ∧ (∀ (r : Result T E) (f : E → F), (Result.map_errTraced f r).2 ≤ 1)
  ∧ (∀ (x : T) (f : E → F),
      Result.map_errTraced f (.Ok x) = (.Ok x, 0))
  ∧ (∀ (r : Result T E) (f : T → Result U E),
      (Result.and_thenTraced f r).2 ≤ 1)
  ∧ (∀ (e : E) (f : T → Result U E),
      Result.and_thenTraced f (.Err e) = (.Err e, 0))
  ∧ (∀ (r : Result T E) (f : E → Result T F),
      (Result.or_elseTraced f r).2 ≤ 1)
  ∧ (∀ (x : T) (f : E → Result T F),
      Result.or_elseTraced f (.Ok x) = (.Ok x, 0))
  ∧ (∀ (r : Result T E) (f : E → T),
      (Result.unwrap_or_elseTraced f r).2 ≤ 1)
  ∧ (∀ (x : T) (f : E → T),
      Result.unwrap_or_elseTraced f (.Ok x) = (x, 0))
  ∧ (∀ (o : Option T) (f : T → U), (Option.mapTraced f o).2 ≤ 1)
  ∧ (∀ f : T → U,
      Option.mapTraced f Option.Nothing = (Option.Nothing, 0))
  ∧ (∀ (o : Option T) (f : T → Option U),
      (Option.and_thenTraced f o).2 ≤ 1)
  ∧ (∀ f : T → Option U,
      Option.and_thenTraced f Option.Nothing = (Option.Nothing, 0))
  ∧ (∀ (o : Option T) (f : Unit → Option T),
      (Option.or_elseTraced f o).2 ≤ 1)
  ∧ (∀ (x : T) (f : Unit → Option T),
      Option.or_elseTraced f (.Some x) = (.Some x, 0))
  ∧ (∀ (o : Option T) (p : T → Bool), (Option.filterTraced p o).2 ≤ 1)
  ∧ (∀ p : T → Bool,
      Option.filterTraced p (Option.Nothing : Option T) = (.Nothing, 0))
  ∧ (∀ (o : Option T) (d : U) (f : T → U),
      (Option.map_orTraced d f o).2 ≤ 1)
  ∧ (∀ (o : Option T) (d : Unit → U) (f : T → U),
      (Option.map_or_elseTraced d f o).2 ≤ 1)
  ∧ (∀ (o : Option T) (f : Unit → T),
      (Option.unwrap_or_elseTraced f o).2 ≤ 1)
  ∧ (∀ (x : T) (f : Unit → T),
      Option.unwrap_or_elseTraced f (.Some x) = (x, 0))
  ∧ (∀ (o : Option T) (f : Unit → E),
      (Option.ok_or_elseTraced f o).2 ≤ 1)
  ∧ (∀ (x : T) (f : Unit → E),
      Option.ok_or_elseTraced f (.Some x) = (.Ok x, 0)) := by
  refine ⟨fun _ _ => rfl, fun _ _ _ => rfl, fun _ _ => rfl, ?_,
    fun _ _ => rfl, ?_, fun _ _ => rfl, ?_, fun _ _ => rfl, ?_,
    fun _ _ => rfl, ?_, fun _ _ => rfl, ?_, fun _ => rfl, ?_,
    fun _ => rfl, ?_, fun _ _ => rfl, ?_, fun _ => rfl, ?_, ?_, ?_,
    fun _ _ => rfl, ?_, fun _ _ => rfl⟩ <;>
  exact fun x => by
    cases x <;> intros <;>
      simp [Result.mapTraced, Result.map_errTraced, Result.and_thenTraced,
        Result.or_elseTraced, Result.unwrap_or_elseTraced, Result.map,
        Option.mapTraced, Option.and_thenTraced, Option.or_elseTraced,
        Option.unwrap_or_elseTraced, Option.ok_or_elseTraced,
        Option.filterTraced, Option.map_orTraced, Option.map_or_elseTraced]

/-- Claim C8: `Option.collect` returns `Some` of the ordered list of all
contained values when every element is present (empty input gives
`Some []`); any absent element makes the whole result `Nothing`, and the
fold stops pulling from the iterable at the first absent element (it
consumes exactly the all-`Some` prelude plus that element). -/
theorem claim_C8 {T : Type} :
    (Option.collect ([] : List (Except PyExc (Option T))) = .ok (.Some []))
  ∧ (∀ vs : List T,
      Option.collect (vs.map fun v => Except.ok (Option.Some v))
        = .ok (.Some vs))
  ∧ (∀ (vs : List T) (rest : List (Except PyExc (Option T))),
      Option.collect
          ((vs.map fun v => Except.ok (Option.Some v))
            ++ Except.ok Option.Nothing :: rest)
        = .ok .Nothing)
  ∧ (∀ (vs : List T) (rest : List (Except PyExc (Option T))),
      (Option.collectTraced
          ((vs.map fun v => Except.ok (Option.Some v))
            ++ Except.ok Option.Nothing :: rest)).2 = vs.length + 1)
  ∧ (∀ l : List (Except PyExc (Option T)),
      (Option.collectTraced l).1 = Option.collect l) := by
  refine ⟨rfl, ?_, ?_, ?_, ?_⟩
  · intro vs
    unfold Option.collect
    rw [reduceE_collectStep_somes vs []]
    rfl
  · intro vs rest
    unfold Option.collect
    rw [reduceE_collectStep_nothing vs rest []]
  · intro vs rest
    exact reduceETraced_collectStep_nothing_count vs rest []
  · intro l
    unfold Option.collectTraced Option.collect
    rw [reduceETraced_fst Option.collectStep l]

/-- Claim C9: `Nothing.__new__` caches its first allocation in the class
attribute `_instance` and every later call returns that same instance (so
`Nothing() is Nothing()`), while `Nothing.__eq__` never consults identity:
any object that is an instance of `Nothing` compares equal, whatever its
allocation id, so equality stays correct even with multiple instances. -/
theorem claim_C9 :
    (∀ (s : InstanceRef) (f1 f2 : Nat),
      (nothingNew (nothingNew s f1).1 f2).2 = (nothingNew s f1).2)
  ∧ (∀ (s : InstanceRef) (f1 : Nat),
      (nothingNew (nothingNew s f1).1 f1).1 = (nothingNew s f1).1)
  ∧ (∀ i j : Nat, nothingEqMethod i true j = true)
  ∧ (∀ i j : Nat, nothingEqMethod i false j = false)
  ∧ (pyEq .nothing .nothing = true) := by
  refine ⟨?_, ?_, fun _ _ => rfl, fun _ _ => rfl, rfl⟩ <;>
    exact fun s f1 => by cases s <;> intros <;> rfl

/-- Claim C10 (implicit): a `RuntimeError` raised by the input iterable
itself while producing an element — after any all-`Some` prelude — is
swallowed by `Option.collect`'s `except RuntimeError` handler, which
returns `Nothing()` instead of propagating the exception. -/
theorem claim_C10 {T : Type} :
    ∀ (vs : List T) (msg : String)
      (rest : List (Except PyExc (Option T))),
      Option.collect
          ((vs.map fun v => Except.ok (Option.Some v))
            ++ Except.error (PyExc.RuntimeError msg) :: rest)
        = .ok Option.Nothing := by
  intro vs msg rest
  unfold Option.collect
  rw [reduceE_collectStep_raise vs (PyExc.RuntimeError msg) rest []]

end Safetywrap
